import Mathlib

/-
Verification of the try-operator error-propagation protocol
(src/try_operator.hpp).

Shallow embedding notes:
- `std::error_code` is modelled by its value semantics: an integer code where
  0 means success and `static_cast<bool>` is `code != 0`.
- An `error_traits<T>` specialization is modelled by the record `ErrTraits`:
  the operations a specialization may or may not provide are `Option`-valued
  fields, so the SFINAE classifiers `is_detailed_error_v` and
  `is_error_with_value_v` become computable predicates on the record.
- Compile-time rejection (a failed static_assert or enable_if, or a call to a
  member that does not exist) is modelled by returning `none`; a well-formed
  instantiation returns `some`.
- The `try()` macro is a statement expression that either returns early from
  the enclosing function (modelled by `TryOutcome.exit`) or yields the
  extracted value (modelled by `TryOutcome.cont`).
-/

namespace tryop

/-- Value model of `std::error_code`: an integer code, `0` meaning success. -/
structure ErrorCode where
  code : Nat
deriving DecidableEq, Repr

/-- `static_cast<bool>(ec)` for `std::error_code`: true iff the code is set. -/
def ErrorCode.toBool (ec : ErrorCode) : Bool := ec.code != 0

/-- The free function `indicates_error(std::error_code const&)`
(src/try_operator.hpp line 156). -/
def indicates_error (ec : ErrorCode) : Bool := ec.toBool

/-- One `error_traits<T>` specialization, for a type `T` whose failure payload
type (when it has one) is `E`. Fields that a specialization may omit are
`Option`-valued; `none` means the member does not exist, so using it is a
compile-time error. `make_error_p` is `make_error(payload)`, `make_error_n`
is the zero-argument `make_error()`. `extract_value` receives the proof that
the value was checked non-failing first (the macro only calls it after
`indicates_error` returned false; for `std::optional` calling it on an empty
value would be undefined behavior). -/
structure ErrTraits (E : Type) where
  T : Type
  V : Type
  indicates_error : T → Bool
  make_error_p : Option (E → T)
  make_error_n : Option T
  extract_value : Option ((v : T) → indicates_error v = false → V)
  extract_error : Option (T → E)

/-- `is_detailed_error_v<T>` (src/try_operator.hpp lines 39-45): the traits
must provide `indicates_error`, `extract_error`, and a `make_error` accepting
the extracted payload. -/
def is_detailed_error_v {E : Type} (tr : ErrTraits E) : Bool :=
  tr.make_error_p.isSome && tr.extract_error.isSome

/-- `is_error_with_value_v<T>` (src/try_operator.hpp lines 48-53): the traits
must provide `indicates_error`, some `make_error` member, and
`extract_value`. -/
def is_error_with_value_v {E : Type} (tr : ErrTraits E) : Bool :=
  (tr.make_error_p.isSome || tr.make_error_n.isSome) && tr.extract_value.isSome

/-- `is_error_v<T>` (src/try_operator.hpp line 56). -/
def is_error_v {E : Type} (tr : ErrTraits E) : Bool :=
  is_detailed_error_v tr || is_error_with_value_v tr

/-- The conversion `error_proxy<Src>::operator Dst()`
(src/try_operator.hpp lines 64-85), together with the proxy constructor's
`static_assert(is_error_v<Src>)` and the operator's
`enable_if_t<is_error_v<Dst>>`. `none` models a compile-time rejection:
a failed static_assert, a failed enable_if, or a call to a `make_error()`
overload that does not exist. -/
def error_proxy_convert {E : Type} (src dst : ErrTraits E) (v : src.T) :
    Option dst.T :=
  if is_error_v src = false then none
  else if is_error_v dst = false then none
  else if is_detailed_error_v dst = true then
    if is_detailed_error_v src = true then
      match src.extract_error, dst.make_error_p with
      | some xe, some me => some (me (xe v))
      | _, _ => none
    else none
  else dst.make_error_n

/-- `detail::maybe_extract_value` (src/try_operator.hpp lines 92-99): extract
the embedded value when the type is error-with-value, otherwise return void
(modelled by `none`). -/
def maybe_extract_value {E : Type} (tr : ErrTraits E) (v : tr.T)
    (h : tr.indicates_error v = false) : Option tr.V :=
  if is_error_with_value_v tr = true then
    match tr.extract_value with
    | some f => some (f v h)
    | none => none
  else none

/-- Outcome of one evaluation of the `try()` statement expression inside a
function whose declared result type is `R`: either an early return from the
enclosing function with a value of type `R`, or continuation with the yielded
value (`none` when the construct yields void). -/
inductive TryOutcome (R V : Type) where
  | exit : R → TryOutcome R V
  | cont : Option V → TryOutcome R V
deriving DecidableEq, Repr

/-- The `try(expr)` macro body (src/try_operator.hpp lines 107-114) applied to
the already-evaluated operand value `v`, inside an enclosing function whose
declared result type has traits `dst`. The outer `none` models the macro's
`static_assert(is_error_v<decltype(_value_)>)` failing, or the returned
`error_proxy` failing to convert to the enclosing result type. -/
def tryOp {E : Type} (src dst : ErrTraits E) (v : src.T) :
    Option (TryOutcome dst.T src.V) :=
  if is_error_v src = false then none
  else
    match h : src.indicates_error v with
    | true => (error_proxy_convert src dst v).map TryOutcome.exit
    | false => some (TryOutcome.cont (maybe_extract_value src v h))

/-- A function body built around one `try`: evaluate the construct on `v`,
and on continuation run the rest of the function `k` on the yielded value and
the current state `s`; on early exit the rest of the function never runs and
the state is left untouched. -/
def runWithTry {E σ : Type} (src dst : ErrTraits E) (v : src.T)
    (k : Option src.V → σ → dst.T × σ) (s : σ) : Option (dst.T × σ) :=
  match tryOp src dst v with
  | none => none
  | some (TryOutcome.exit r) => some (r, s)
  | some (TryOutcome.cont x) => some (k x s)

/-- The full statement expression `({ auto _value_ = (expr); ... })` with a
state-threaded operand expression: `expr` is evaluated exactly once and its
result is bound to the single local `_value_`, which both branches then use. -/
def tryEval {E σ : Type} (src dst : ErrTraits E) (expr : σ → src.T × σ)
    (s : σ) : Option (TryOutcome dst.T src.V) × σ :=
  let p := expr s
  (tryOp src dst p.1, p.2)

-- __________________________
-- optional-like error_traits

namespace optional_traits

/-- `indicates_error` of the optional-like adapter
(src/try_operator.hpp lines 136-138): `!static_cast<bool>(opt)`. -/
def indicates_error {α : Type} (o : Option α) : Bool := !o.isSome

/-- `make_error` of the optional-like adapter (lines 139-141): `return {}`,
the empty optional. -/
def make_error {α : Type} : Option α := none

/-- `extract_value` of the optional-like adapter (lines 142-144):
`std::move(*opt)`; dereferencing requires the optional to be engaged, which
the proof `h` guarantees. -/
def extract_value {α : Type} (o : Option α) (h : indicates_error o = false) :
    α :=
  o.get (by cases o <;> simp_all [indicates_error])

end optional_traits

/-- The `error_traits` specialization for `std::optional<α>`
(src/try_operator.hpp lines 127-145). It has no `extract_error` and no
payload-taking `make_error`. -/
def optionalTraits (α : Type) : ErrTraits ErrorCode where
  T := Option α
  V := α
  indicates_error := optional_traits.indicates_error
  make_error_p := none
  make_error_n := some optional_traits.make_error
  extract_value := some (fun v h => optional_traits.extract_value v h)
  extract_error := none

-- ____________________________
-- error code-like error_traits

namespace ec_traits

/-- `indicates_error` of the error-code-like adapter
(src/try_operator.hpp lines 179-181), delegating to the free function. -/
def indicates_error (err : ErrorCode) : Bool := tryop.indicates_error err

/-- `make_error` of the error-code-like adapter (lines 182-184): the moved
code itself. -/
def make_error (err : ErrorCode) : ErrorCode := err

/-- `extract_error` of the error-code-like adapter (lines 185-187): the moved
code itself. -/
def extract_error (err : ErrorCode) : ErrorCode := err

end ec_traits

/-- The `error_traits` specialization for `std::error_code`
(src/try_operator.hpp lines 175-188). It has no `extract_value`. -/
def errorCodeTraits : ErrTraits ErrorCode where
  T := ErrorCode
  V := Unit
  indicates_error := ec_traits.indicates_error
  make_error_p := some ec_traits.make_error
  make_error_n := none
  extract_value := none
  extract_error := some ec_traits.extract_error

-- ______________________
-- pair-like error_traits

namespace pair_traits

/-- `indicates_error` of the pair-like adapter
(src/try_operator.hpp lines 213-215): delegates to the second component. -/
def indicates_error {α : Type} (val : α × ErrorCode) : Bool :=
  tryop.indicates_error val.2

/-- `make_error` of the pair-like adapter (lines 216-220):
`auto val = Pair<T, Error>{}; std::get<1>(val) = std::move(err)`. The
value-initialized first component `T{}` is passed explicitly as `d`
(0 for int, the empty string for std::string). -/
def make_error {α : Type} (d : α) (err : ErrorCode) : α × ErrorCode := (d, err)

/-- `extract_value` of the pair-like adapter (lines 221-223): the first
component. -/
def extract_value {α : Type} (val : α × ErrorCode) : α := val.1

/-- `extract_error` of the pair-like adapter (lines 224-226): the second
component. -/
def extract_error {α : Type} (val : α × ErrorCode) : ErrorCode := val.2

end pair_traits

/-- The `error_traits` specialization for `Pair<T, Error>` with
`Error = std::error_code` (src/try_operator.hpp lines 207-227). `d` is the
value-initialized `T{}` used by `make_error`. -/
def pairTraits (α : Type) (d : α) : ErrTraits ErrorCode where
  T := α × ErrorCode
  V := α
  indicates_error := pair_traits.indicates_error
  make_error_p := some (pair_traits.make_error d)
  make_error_n := none
  extract_value := some (fun v _ => pair_traits.extract_value v)
  extract_error := some pair_traits.extract_error

-- _______________________________________________
-- classification sanity (the source's own static_asserts)

/-- Mirrors `static_assert(is_error_with_value_v<std::optional<int>>)` and
`static_assert(!is_detailed_error_v<std::optional<int>>)`
(src/try_operator.hpp lines 147-148). -/
theorem optional_classification (α : Type) :
    is_error_with_value_v (optionalTraits α) = true ∧
    is_detailed_error_v (optionalTraits α) = false :=
  ⟨rfl, rfl⟩

/-- Mirrors `static_assert(is_detailed_error_v<std::error_code>)` and
`static_assert(!is_error_with_value_v<std::error_code>)`
(src/try_operator.hpp lines 190-191). -/
theorem error_code_classification :
    is_detailed_error_v errorCodeTraits = true ∧
    is_error_with_value_v errorCodeTraits = false :=
  ⟨rfl, rfl⟩

/-- Mirrors the static_asserts for `std::tuple<int, std::error_code>`
(src/try_operator.hpp lines 229-230): the pair adapter is both detailed and
error-with-value. -/
theorem pair_classification (α : Type) (d : α) :
    is_detailed_error_v (pairTraits α d) = true ∧
    is_error_with_value_v (pairTraits α d) = true :=
  ⟨rfl, rfl⟩

-- ______________________
-- helper lemmas

/-- Unfolding lemma for `tryOp` on a failing operand. -/
theorem tryOp_indicated {E : Type} (src dst : ErrTraits E) (v : src.T)
    (hsrc : is_error_v src = true) (hv : src.indicates_error v = true) :
    tryOp src dst v = (error_proxy_convert src dst v).map TryOutcome.exit := by
  unfold tryOp
  rw [if_neg (by simp [hsrc])]
  split
  · rfl
  · rename_i h
    rw [hv] at h
    exact Bool.noConfusion h

/-- Unfolding lemma for `tryOp` on a non-failing operand. -/
theorem tryOp_not_indicated {E : Type} (src dst : ErrTraits E) (v : src.T)
    (hsrc : is_error_v src = true) (hv : src.indicates_error v = false) :
    tryOp src dst v = some (TryOutcome.cont (maybe_extract_value src v hv)) := by
  unfold tryOp
  rw [if_neg (by simp [hsrc])]
  split
  · rename_i h
    rw [hv] at h
    exact Bool.noConfusion h
  · rfl

-- ______________________
-- claim theorems

/-- C1: if the operand of the `try()` construct indicates failure, the
enclosing function terminates immediately: whatever the rest of the function
`k` is, it never runs (the result and the state are independent of it), the
state is left exactly as it was, and the function's result is the failing
value converted through the conversion proxy into the function's declared
result type. -/
theorem try_short_circuits {E σ : Type} (src dst : ErrTraits E) (v : src.T)
    (s : σ) (hsrc : is_error_v src = true)
    (hv : src.indicates_error v = true) :
    ∀ k : Option src.V → σ → dst.T × σ,
      runWithTry src dst v k s =
        (error_proxy_convert src dst v).map (fun r => (r, s)) := by
  intro k
  unfold runWithTry
  rw [tryOp_indicated src dst v hsrc hv]
  cases error_proxy_convert src dst v <;> rfl

/-- Witness for C1: an inner `std::error_code` set to 7, propagated out of a
function returning `(int, std::error_code)` with a nontrivial continuation,
yields exactly the converted failure `(0, 7)` with the state untouched. -/
theorem try_short_circuits_witness :
    is_error_v errorCodeTraits = true ∧
    errorCodeTraits.indicates_error (ErrorCode.mk 7) = true ∧
    runWithTry errorCodeTraits (pairTraits Int 0) (ErrorCode.mk 7)
        (fun _ n => ((99, ErrorCode.mk 0), n + 1)) 0 =
      some ((0, ErrorCode.mk 7), 0) :=
  ⟨rfl, rfl,
    (try_short_circuits errorCodeTraits (pairTraits Int 0) (ErrorCode.mk 7) 0
      rfl rfl (fun _ n => ((99, ErrorCode.mk 0), n + 1))).trans rfl⟩

/-- C2: converting a failing value of a detailed-error source into a
detailed-error destination produces the destination's `make_error` applied to
the source's `extract_error` (first, generic conjunct), and for the claim's
concrete instance — a `(string, error_code)` pair converted to `error_code` —
the payload extractable from the destination equals the payload extracted
from the source. -/
theorem detailed_to_detailed_preserves_payload :
    (∀ (E : Type) (src dst : ErrTraits E) (v : src.T)
        (xe : src.T → E) (me : E → dst.T),
        is_detailed_error_v src = true → is_detailed_error_v dst = true →
        src.extract_error = some xe → dst.make_error_p = some me →
        error_proxy_convert src dst v = some (me (xe v))) ∧
    (∀ (s : String) (e : ErrorCode),
        error_proxy_convert (pairTraits String "") errorCodeTraits (s, e) =
          some (ec_traits.make_error (pair_traits.extract_error (s, e)))) ∧
    (∀ (s : String) (e : ErrorCode),
        (error_proxy_convert (pairTraits String "") errorCodeTraits
            (s, e)).map ec_traits.extract_error =
          some (pair_traits.extract_error (s, e))) := by
  refine ⟨?_, fun s e => rfl, fun s e => rfl⟩
  intro E src dst v xe me hs hd hxe hme
  unfold error_proxy_convert
  have h1 : is_error_v src = true := by
    unfold is_error_v; rw [hs]; rfl
  have h2 : is_error_v dst = true := by
    unfold is_error_v; rw [hd]; rfl
  rw [h1, h2, hs, hd]
  simp [hxe, hme]

/-- Witness for C2: converting the failing pair `("boom", 5)` to an
`error_code` yields exactly code 5, the payload of the source. -/
theorem detailed_to_detailed_preserves_payload_witness :
    is_detailed_error_v (pairTraits String "") = true ∧
    is_detailed_error_v errorCodeTraits = true ∧
    error_proxy_convert (pairTraits String "") errorCodeTraits
        ("boom", ErrorCode.mk 5) =
      some (ec_traits.make_error (pair_traits.extract_error
        ("boom", ErrorCode.mk 5))) :=
  ⟨rfl, rfl,
    detailed_to_detailed_preserves_payload.1 ErrorCode (pairTraits String "")
      errorCodeTraits ("boom", ErrorCode.mk 5) pair_traits.extract_error
      ec_traits.make_error rfl rfl rfl rfl⟩

/-- C3: converting a failing detailed-error value into a destination that is
not detailed (the optional-like shape) yields exactly the destination's
no-payload `make_error()`, i.e. the empty optional, for every source value —
so the result never depends on the source's failure payload. -/
theorem detailed_to_plain_discards_payload :
    (∀ (s : String) (e : ErrorCode),
        error_proxy_convert (pairTraits String "") (optionalTraits String)
            (s, e) =
          some (optional_traits.make_error (α := String))) ∧
    (∀ (e : ErrorCode),
        error_proxy_convert errorCodeTraits (optionalTraits Nat) e =
          some (optional_traits.make_error (α := Nat))) ∧
    (∀ (s₁ s₂ : String) (e₁ e₂ : ErrorCode),
        error_proxy_convert (pairTraits String "") (optionalTraits String)
            (s₁, e₁) =
          error_proxy_convert (pairTraits String "") (optionalTraits String)
            (s₂, e₂)) :=
  ⟨fun _ _ => rfl, fun _ => rfl, fun _ _ _ _ => rfl⟩

/-- C4: a conversion whose source is not a detailed error and whose
destination is cannot happen: generically, the conversion is a compile-time
rejection (`none`), and concretely a failing optional can be converted
neither to an `error_code` nor to a `(int, error_code)` pair. -/
theorem no_upgrade_conversion :
    (∀ (E : Type) (src dst : ErrTraits E) (v : src.T),
        is_detailed_error_v dst = true → is_detailed_error_v src = false →
        error_proxy_convert src dst v = none) ∧
    (∀ (o : Option String),
        error_proxy_convert (optionalTraits String) errorCodeTraits o =
          none) ∧
    (∀ (o : Option Nat),
        error_proxy_convert (optionalTraits Nat) (pairTraits Int 0) o =
          none) := by
  refine ⟨?_, fun o => rfl, fun o => rfl⟩
  intro E src dst v hd hs
  unfold error_proxy_convert
  rw [hd, hs]
  cases h1 : is_error_v src <;> cases h2 : is_error_v dst <;> rfl

/-- Witness for C4: the empty failing `optional<string>`, aimed at an
`error_code` destination, is rejected. -/
theorem no_upgrade_conversion_witness :
    is_detailed_error_v (errorCodeTraits) = true ∧
    is_detailed_error_v (optionalTraits String) = false ∧
    error_proxy_convert (optionalTraits String) errorCodeTraits none = none :=
  ⟨rfl, rfl,
    no_upgrade_conversion.1 ErrorCode (optionalTraits String) errorCodeTraits
      none rfl rfl⟩

/-- C5: if the operand does not indicate failure, the `try()` construct
yields exactly the extracted value for error-with-value operands (an
`optional<string>` holding "ok" yields "ok", a success pair yields its first
component), yields no value for a detailed-error-only operand (an unset
`error_code`), and — last, generic conjunct — the enclosing function
continues normally: the rest of the function runs on the yielded value. -/
theorem try_pass_through :
    (∀ (dst : ErrTraits ErrorCode) (s : String),
        tryOp (optionalTraits String) dst (some s) =
          some (TryOutcome.cont (some s))) ∧
    (∀ (dst : ErrTraits ErrorCode) (a : Int) (e : ErrorCode),
        tryop.indicates_error e = false →
        tryOp (pairTraits Int 0) dst (a, e) =
          some (TryOutcome.cont (some a))) ∧
    (∀ (dst : ErrTraits ErrorCode) (e : ErrorCode),
        tryop.indicates_error e = false →
        tryOp errorCodeTraits dst e = some (TryOutcome.cont none)) ∧
    (∀ (E σ : Type) (src dst : ErrTraits E) (v : src.T) (s : σ)
        (hs : is_error_v src = true) (h : src.indicates_error v = false)
        (k : Option src.V → σ → dst.T × σ),
        runWithTry src dst v k s =
          some (k (maybe_extract_value src v h) s)) := by
  refine ⟨fun dst s => rfl,
          fun dst a e h =>
            (tryOp_not_indicated (pairTraits Int 0) dst (a, e) rfl h).trans
              rfl,
          fun dst e h =>
            (tryOp_not_indicated errorCodeTraits dst e rfl h).trans rfl,
          ?_⟩
  intro E σ src dst v s hs h k
  unfold runWithTry
  rw [tryOp_not_indicated src dst v hs h]

/-- Witness for C5: `try` on an unset `error_code` inside a function
returning `optional<nat>` continues with no yielded value. -/
theorem try_pass_through_witness :
    tryop.indicates_error (ErrorCode.mk 0) = false ∧
    tryOp errorCodeTraits (optionalTraits Nat) (ErrorCode.mk 0) =
      some (TryOutcome.cont none) :=
  ⟨rfl, try_pass_through.2.2.1 (optionalTraits Nat) (ErrorCode.mk 0) rfl⟩

/-- C6 counterexample: for the error-code-like and the pair-like adapters,
`make_error` is the identity on (respectively a copy into) the given code, so
applying it to the zero/unset code — a legitimate value of the payload
type — produces a value that does NOT indicate failure: the claim's "for
every payload p" is false at p = code 0. -/
theorem make_error_zero_payload_not_error :
    ec_traits.indicates_error (ec_traits.make_error (ErrorCode.mk 0)) =
      false ∧
    pair_traits.indicates_error
        (pair_traits.make_error (0 : Int) (ErrorCode.mk 0)) = false :=
  ⟨rfl, rfl⟩

/-- C6 (amended): `make_error` yields a failure-indicating value for every
payload that itself indicates failure (a set, nonzero code) — the only
payloads the propagation machinery ever feeds it, since they are extracted
from failing values — and the optional-like adapter's payload-less
`make_error()` always indicates failure. -/
theorem make_error_indicates_error :
    (∀ p : ErrorCode, tryop.indicates_error p = true →
        ec_traits.indicates_error (ec_traits.make_error p) = true) ∧
    (∀ (α : Type) (d : α) (p : ErrorCode), tryop.indicates_error p = true →
        pair_traits.indicates_error (pair_traits.make_error d p) = true) ∧
    (∀ (α : Type),
        optional_traits.indicates_error
          (optional_traits.make_error (α := α)) = true) :=
  ⟨fun p h => h, fun α d p h => h, fun α => rfl⟩

/-- Witness for C6 (amended): the set code 3 stays failure-indicating through
`make_error`. -/
theorem make_error_indicates_error_witness :
    tryop.indicates_error (ErrorCode.mk 3) = true ∧
    ec_traits.indicates_error (ec_traits.make_error (ErrorCode.mk 3)) =
      true :=
  ⟨rfl, make_error_indicates_error.1 (ErrorCode.mk 3) rfl⟩

/-- C7: for the error-code-like adapter, `extract_error` and `make_error`
round-trip the code value itself: both are the identity, and both
compositions return the original code. -/
theorem ec_round_trip :
    ∀ e : ErrorCode,
      ec_traits.extract_error e = e ∧
      ec_traits.make_error e = e ∧
      ec_traits.extract_error (ec_traits.make_error e) = e ∧
      ec_traits.make_error (ec_traits.extract_error e) = e :=
  fun e => ⟨rfl, rfl, rfl, rfl⟩

/-- C8: the pair-like adapter's `make_error(err)` keeps the first component
at its value-initialized default and stores `err` as the second component;
in particular a function returning `(int, error_code)` that propagates a set
inner code `err` returns exactly `(0, err)`. -/
theorem pair_make_error_default_first :
    (∀ (α : Type) (d : α) (err : ErrorCode),
        (pair_traits.make_error d err).1 = d ∧
        (pair_traits.make_error d err).2 = err) ∧
    (∀ err : ErrorCode,
        pair_traits.make_error (0 : Int) err = (0, err)) ∧
    (∀ err : ErrorCode, tryop.indicates_error err = true →
        tryOp errorCodeTraits (pairTraits Int 0) err =
          some (TryOutcome.exit (0, err))) := by
  refine ⟨fun α d err => ⟨rfl, rfl⟩, fun err => rfl, fun err h => ?_⟩
  rw [tryOp_indicated errorCodeTraits (pairTraits Int 0) err rfl h]
  rfl

/-- Witness for C8: propagating the set code 9 out of a function returning
`(int, error_code)` produces `(0, 9)`. -/
theorem pair_make_error_default_first_witness :
    tryop.indicates_error (ErrorCode.mk 9) = true ∧
    tryOp errorCodeTraits (pairTraits Int 0) (ErrorCode.mk 9) =
      some (TryOutcome.exit (0, ErrorCode.mk 9)) :=
  ⟨rfl, pair_make_error_default_first.2.2 (ErrorCode.mk 9) rfl⟩

/-- C9: for every value of each registered type, `indicates_error` returns
exactly one boolean — it is a total function into `Bool`, so it classifies
every value and never classifies a value as both success and failure. -/
theorem indicates_error_total :
    (∀ (α : Type) (o : Option α),
        ((optionalTraits α).indicates_error o = true ∨
          (optionalTraits α).indicates_error o = false) ∧
        ¬((optionalTraits α).indicates_error o = true ∧
          (optionalTraits α).indicates_error o = false)) ∧
    (∀ ec : ErrorCode,
        (errorCodeTraits.indicates_error ec = true ∨
          errorCodeTraits.indicates_error ec = false) ∧
        ¬(errorCodeTraits.indicates_error ec = true ∧
          errorCodeTraits.indicates_error ec = false)) ∧
    (∀ (α : Type) (d : α) (p : α × ErrorCode),
        ((pairTraits α d).indicates_error p = true ∨
          (pairTraits α d).indicates_error p = false) ∧
        ¬((pairTraits α d).indicates_error p = true ∧
          (pairTraits α d).indicates_error p = false)) := by
  refine ⟨fun α o => ?_, fun ec => ?_, fun α d p => ?_⟩
  · cases h : (optionalTraits α).indicates_error o <;> simp [h]
  · cases h : errorCodeTraits.indicates_error ec <;> simp [h]
  · cases h : (pairTraits α d).indicates_error p <;> simp [h]

/-- Witness for C9: the empty `optional<nat>` is classified exactly once. -/
theorem indicates_error_total_witness :
    ((optionalTraits Nat).indicates_error none = true ∨
      (optionalTraits Nat).indicates_error none = false) ∧
    ¬((optionalTraits Nat).indicates_error none = true ∧
      (optionalTraits Nat).indicates_error none = false) :=
  indicates_error_total.1 Nat none

/-- C10: the macro evaluates its operand expression exactly once per use, on
both paths: the whole statement expression equals the try test applied to the
value of a single evaluation of the operand, with the evaluation state
advanced exactly once (generic conjunct); instrumenting the operand with an
evaluation counter shows the counter ends at n + 1 whatever value the operand
produced (second conjunct), in particular on a failing operand (code 5) and
on a succeeding operand (code 0) alike. -/
theorem try_evaluates_operand_once :
    (∀ (E σ : Type) (src dst : ErrTraits E) (expr : σ → src.T × σ) (s : σ),
        tryEval src dst expr s =
          (tryOp src dst (expr s).1, (expr s).2)) ∧
    (∀ (f : Nat → ErrorCode) (n : Nat),
        (tryEval errorCodeTraits errorCodeTraits
            (fun m => (f m, m + 1)) n).2 = n + 1) ∧
    (∀ n : Nat,
        (tryEval errorCodeTraits errorCodeTraits
            (fun m => (ErrorCode.mk 5, m + 1)) n).2 = n + 1 ∧
        (tryEval errorCodeTraits errorCodeTraits
            (fun m => (ErrorCode.mk 0, m + 1)) n).2 = n + 1) :=
  ⟨fun E σ src dst expr s => rfl, fun f n => rfl, fun n => ⟨rfl, rfl⟩⟩

end tryop
